import Mathlib

/-!
# Verification of the seat-reservation core (booking/services.py)

A shallow embedding of the reservation engine of the bus-booking backend.
The durable store is a list of seat records; time is an abstract `Nat`
timestamp passed explicitly (`_now()` in the source).  Django queryset
operations (`filter`, `update`, `get`, `count`) become list operations;
`@transaction.atomic` functions become pure functions from a store to a
result together with the committed store.  Randomly generated codes
(`Seat.generate_claim_code` / `Seat.generate_booking_code`, defined in the
models module) are supplied as explicit arguments.
-/

namespace Booking

/-- Seat.Status: three values, AVAILABLE / HOLD / BOOKED. -/
inductive Status where
  | available
  | hold
  | booked
deriving DecidableEq, Repr

/-- A seat record, fields as in the Seat model (spec section 3 and the
fields read and written by services.py / admin.py). -/
structure Seat where
  id : Nat
  tripId : Nat
  code : String
  status : Status
  hold_token : Option String
  hold_until : Option Nat
  customer_name : Option String
  customer_wa : Option String
  claim_code : Option String
  booking_code : Option String
  booked_at : Option Nat
deriving DecidableEq, Repr

/-- A trip record (only the fields the services read). -/
structure Trip where
  id : Nat
  title : String
  bus_type : String
  route_from : String
  route_to : String
  depart_at : Nat
  price : Nat
  capacity_total : Nat
  admin_wa : String
  is_active : Bool
deriving DecidableEq, Repr

/-- ServiceResult: `ok` flag plus human-readable message.  The optional
`data` dict is modelled separately where a claim needs it. -/
structure ServiceResult where
  ok : Bool
  message : String
deriving DecidableEq, Repr

/-- The store: all seat rows. -/
abbrev Store := List Seat

/-- `hold_until__lt=now` — hold_until present and strictly before now
(SQL NULL never matches a comparison). -/
def holdUntilLt (now : Nat) (s : Seat) : Prop :=
  ∃ t, s.hold_until = some t ∧ t < now

instance (now : Nat) (s : Seat) : Decidable (holdUntilLt now s) := by
  unfold holdUntilLt
  exact match s.hold_until with
  | some t => decidable_of_iff (t < now) (by simp)
  | none => isFalse (by simp)

/-- `hold_until__gte=now` — hold_until present and at least now. -/
def holdUntilGe (now : Nat) (s : Seat) : Prop :=
  ∃ t, s.hold_until = some t ∧ now ≤ t

instance (now : Nat) (s : Seat) : Decidable (holdUntilGe now s) := by
  unfold holdUntilGe
  exact match s.hold_until with
  | some t => decidable_of_iff (now ≤ t) (by simp)
  | none => isFalse (by simp)

/-- The filter of `expire_holds`: status = HOLD and hold_until < now. -/
def expiredHold (now : Nat) (s : Seat) : Prop :=
  s.status = Status.hold ∧ holdUntilLt now s

instance (now : Nat) (s : Seat) : Decidable (expiredHold now s) := by
  unfold expiredHold; infer_instance

/-- The per-row effect of the `expire_holds` update: back to AVAILABLE,
clearing hold_token, hold_until, customer_name, customer_wa, claim_code;
booking_code is left as stored. -/
def releaseSeat (s : Seat) : Seat :=
  { s with
    status := Status.available
    hold_token := none
    hold_until := none
    customer_name := none
    customer_wa := none
    claim_code := none }

/-- expire_holds(): release every HOLD seat past its hold_until; returns
the updated store and the number of rows updated. -/
def expire_holds (store : Store) (now : Nat) : Store × Nat :=
  (store.map (fun s => if expiredHold now s then releaseSeat s else s),
   (store.filter (fun s => decide (expiredHold now s))).length)

/-- The swept store (first component of expire_holds). -/
def sweep (store : Store) (now : Nat) : Store :=
  (expire_holds store now).1

/-- _count_holds_for_token: seats of the trip currently HOLD by this token
with hold_until ≥ now. -/
def _count_holds_for_token (store : Store) (now : Nat) (tripId : Nat)
    (hold_token : String) : Nat :=
  (store.filter (fun s =>
    decide (s.tripId = tripId ∧ s.status = Status.hold ∧
      s.hold_token = some hold_token ∧ holdUntilGe now s))).length

/-- `Seat.objects.get(trip_id=…, code=…)` — seat codes are unique within a
trip, so the first match models the unique row. -/
def findSeat (store : Store) (tripId : Nat) (code : String) : Option Seat :=
  store.find? (fun s => decide (s.tripId = tripId ∧ s.code = code))

/-- Save a mutated seat row back into the store (rows are keyed by id). -/
def saveSeat (store : Store) (sid : Nat) (f : Seat → Seat) : Store :=
  store.map (fun s => if s.id = sid then f s else s)

/-- hold_seat: atomic hold of one seat (quota check, lookup, BOOKED check,
held-by-other check, same-token refresh, acquire). -/
def hold_seat (store : Store) (now : Nat) (tripId : Nat) (seat_code : String)
    (hold_token : String) (hold_minutes : Nat) (max_hold_per_session : Nat) :
    ServiceResult × Store :=
  let store1 := sweep store now
  let current_holds := _count_holds_for_token store1 now tripId hold_token
  if max_hold_per_session ≤ current_holds then
    (⟨false, "Maksimal hold " ++ toString max_hold_per_session ++ " kursi."⟩, store1)
  else
    match findSeat store1 tripId seat_code with
    | none => (⟨false, "Kursi tidak ditemukan."⟩, store1)
    | some seat =>
      if seat.status = Status.booked then
        (⟨false, "Kursi sudah terisi (BOOKED)."⟩, store1)
      else if seat.status = Status.hold ∧ holdUntilGe now seat then
        if seat.hold_token ≠ some hold_token then
          (⟨false, "Kursi sedang di-hold user lain."⟩, store1)
        else
          (⟨true, "Hold diperpanjang."⟩,
           saveSeat store1 seat.id (fun s =>
             { s with hold_until := some (now + hold_minutes) }))
      else
        (⟨true, "Kursi berhasil di-hold."⟩,
         saveSeat store1 seat.id (fun s =>
           { s with
             status := Status.hold
             hold_token := some hold_token
             hold_until := some (now + hold_minutes)
             customer_name := none
             customer_wa := none
             claim_code := none
             booked_at := none
             booking_code := none }))

/-- release_seat: the holder releases their own active hold. -/
def release_seat (store : Store) (now : Nat) (tripId : Nat) (seat_code : String)
    (hold_token : String) : ServiceResult × Store :=
  let store1 := sweep store now
  match findSeat store1 tripId seat_code with
  | none => (⟨false, "Kursi tidak ditemukan."⟩, store1)
  | some seat =>
    if ¬ (seat.status = Status.hold ∧ holdUntilGe now seat) then
      (⟨false, "Kursi tidak sedang di-hold aktif."⟩, store1)
    else if seat.hold_token ≠ some hold_token then
      (⟨false, "Tidak punya akses untuk melepas hold ini."⟩, store1)
    else
      (⟨true, "Hold dilepas."⟩, saveSeat store1 seat.id releaseSeat)

/-- Python str.strip(): drop leading and trailing whitespace. -/
def pyStrip (s : String) : String :=
  String.mk (((s.data.dropWhile Char.isWhitespace).reverse.dropWhile
    Char.isWhitespace).reverse)

/-- Python str.upper(): uppercase every character. -/
def pyUpper (s : String) : String :=
  String.mk (s.data.map Char.toUpper)

/-- The seat-selection filter of attach_contact_and_generate_claim:
all seats of the trip currently HOLD by the token with hold_until ≥ now. -/
def attachPred (now : Nat) (tripId : Nat) (hold_token : String) (s : Seat) : Prop :=
  s.tripId = tripId ∧ s.status = Status.hold ∧
    s.hold_token = some hold_token ∧ holdUntilGe now s

instance (now tripId : Nat) (tok : String) (s : Seat) :
    Decidable (attachPred now tripId tok s) := by
  unfold attachPred; infer_instance

/-- `Trip.objects.get(id=…, is_active=True)`. -/
def findTrip (trips : List Trip) (tripId : Nat) : Option Trip :=
  trips.find? (fun t => decide (t.id = tripId ∧ t.is_active = true))

/-- attach_contact_and_generate_claim: write the (stripped) contact fields
and one freshly generated claim_code onto every active hold of the token in
the trip.  The generated code is passed in as `gen_code`. -/
def attach_contact_and_generate_claim (store : Store) (trips : List Trip)
    (now : Nat) (tripId : Nat) (hold_token : String)
    (customer_name : String) (customer_wa : String) (gen_code : String) :
    ServiceResult × Store :=
  let store1 := sweep store now
  match findTrip trips tripId with
  | none => (⟨false, "Trip tidak ditemukan."⟩, store1)
  | some _ =>
    if ¬ store1.any (fun s => decide (attachPred now tripId hold_token s)) then
      (⟨false, "Tidak ada kursi hold aktif untuk token ini."⟩, store1)
    else
      (⟨true, "Kontak disimpan & claim code dibuat."⟩,
       store1.map (fun s =>
         if attachPred now tripId hold_token s then
           { s with
             customer_name := some (pyStrip customer_name)
             customer_wa := some (pyStrip customer_wa)
             claim_code := some gen_code }
         else s))

/-- The seat-selection filter of claim_hold_by_code: active holds of the
trip carrying the (normalized) claim code, optionally also matching the
supplied WA number.  `if customer_wa:` in Python is false for both `None`
and the empty string. -/
def waCond (customer_wa : Option String) (s : Seat) : Prop :=
  match customer_wa with
  | none => True
  | some w => if w = "" then True else s.customer_wa = some (pyStrip w)

instance : (wa : Option String) → (s : Seat) → Decidable (waCond wa s)
  | none, _ => isTrue True.intro
  | some w, s =>
      if h : w = "" then isTrue (by simp [waCond, h])
      else decidable_of_iff (s.customer_wa = some (pyStrip w)) (by simp [waCond, h])

def claimPred (now : Nat) (tripId : Nat) (claim_code : String)
    (customer_wa : Option String) (s : Seat) : Prop :=
  s.tripId = tripId ∧ s.status = Status.hold ∧ holdUntilGe now s ∧
    s.claim_code = some (pyUpper (pyStrip claim_code)) ∧ waCond customer_wa s

instance (now tripId : Nat) (cc : String) (wa : Option String) (s : Seat) :
    Decidable (claimPred now tripId cc wa s) := by
  unfold claimPred; infer_instance

/-- claim_hold_by_code: transfer every seat of the claim-code cohort to a
new session token. -/
def claim_hold_by_code (store : Store) (now : Nat) (tripId : Nat)
    (claim_code : String) (new_hold_token : String)
    (customer_wa : Option String) : ServiceResult × Store :=
  let store1 := sweep store now
  if ¬ store1.any (fun s => decide (claimPred now tripId claim_code customer_wa s)) then
    (⟨false, "Claim code tidak valid atau sudah expired."⟩, store1)
  else
    (⟨true, "Hold berhasil di-claim."⟩,
     store1.map (fun s =>
       if claimPred now tripId claim_code customer_wa s then
         { s with hold_token := some new_hold_token }
       else s))

/-- The seat-selection filter of both admin finalize variants:
`filter(trip_id=…, code__in=seat_codes)`. -/
def adminPred (tripId : Nat) (seat_codes : List String) (s : Seat) : Prop :=
  s.tripId = tripId ∧ s.code ∈ seat_codes

instance (tripId : Nat) (cs : List String) (s : Seat) :
    Decidable (adminPred tripId cs s) := by
  unfold adminPred; infer_instance

/-- The seats loaded by the admin finalize variants. -/
def adminSeats (store : Store) (tripId : Nat) (seat_codes : List String) : Store :=
  store.filter (fun s => decide (adminPred tripId seat_codes s))

/-- The codes of the loaded seats already BOOKED. -/
def alreadyBookedCodes (store : Store) (tripId : Nat)
    (seat_codes : List String) : List String :=
  ((adminSeats store tripId seat_codes).filter
    (fun s => decide (s.status = Status.booked))).map Seat.code

/-- admin_generate_booking_code_and_book: set every requested seat to
BOOKED with a shared booking code; the generated code is `gen_code`. -/
def admin_generate_booking_code_and_book (store : Store) (now : Nat)
    (tripId : Nat) (seat_codes : List String) (gen_code : String) :
    ServiceResult × Store :=
  let store1 := sweep store now
  if (adminSeats store1 tripId seat_codes).length ≠ seat_codes.length then
    (⟨false, "Ada kursi yang tidak ditemukan."⟩, store1)
  else if alreadyBookedCodes store1 tripId seat_codes ≠ [] then
    (⟨false, "Kursi sudah BOOKED: " ++
        String.intercalate ", " (alreadyBookedCodes store1 tripId seat_codes)⟩,
     store1)
  else
    (⟨true, "BOOKED + booking code dibuat."⟩,
     store1.map (fun s =>
       if adminPred tripId seat_codes s then
         { s with
           status := Status.booked
           booked_at := some now
           booking_code := some gen_code
           hold_token := none
           hold_until := none }
       else s))

/-- confirm_booked_by_admin: legacy variant, same transition without a
booking code. -/
def confirm_booked_by_admin (store : Store) (now : Nat) (tripId : Nat)
    (seat_codes : List String) : ServiceResult × Store :=
  let store1 := sweep store now
  if (adminSeats store1 tripId seat_codes).length ≠ seat_codes.length then
    (⟨false, "Ada kursi yang tidak ditemukan."⟩, store1)
  else if alreadyBookedCodes store1 tripId seat_codes ≠ [] then
    (⟨false, "Kursi sudah BOOKED: " ++
        String.intercalate ", " (alreadyBookedCodes store1 tripId seat_codes)⟩,
     store1)
  else
    (⟨true, "Kursi berhasil dikonfirmasi BOOKED."⟩,
     store1.map (fun s =>
       if adminPred tripId seat_codes s then
         { s with
           status := Status.booked
           booked_at := some now
           hold_token := none
           hold_until := none }
       else s))

/-- JSON-ish values appearing in the seat-map payload. -/
inductive JVal where
  | jstr (v : String)
  | jnat (v : Nat)
  | jnull
deriving DecidableEq, Repr

/-- The stored string of a Status value (Django TextChoices). -/
def statusStr : Status → String
  | Status.available => "AVAILABLE"
  | Status.hold => "HOLD"
  | Status.booked => "BOOKED"

/-- One per-seat dict of the seat-map payload: id, code, status,
hold_until (isoformat or null). -/
def seatEntry (s : Seat) : List (String × JVal) :=
  [("id", JVal.jnat s.id),
   ("code", JVal.jstr s.code),
   ("status", JVal.jstr (statusStr s.status)),
   ("hold_until", match s.hold_until with
                  | some t => JVal.jnat t
                  | none => JVal.jnull)]

/-- The trip dict of the seat-map payload. -/
def tripEntry (t : Trip) : List (String × JVal) :=
  [("id", JVal.jnat t.id),
   ("title", JVal.jstr t.title),
   ("bus_type", JVal.jstr t.bus_type),
   ("route_from", JVal.jstr t.route_from),
   ("route_to", JVal.jstr t.route_to),
   ("depart_at", JVal.jnat t.depart_at),
   ("price", JVal.jnat t.price),
   ("capacity_total", JVal.jnat t.capacity_total),
   ("admin_wa", JVal.jstr t.admin_wa)]

/-- `order_by("code")`: insertion of one seat into a code-sorted list. -/
def insertByCode (s : Seat) : Store → Store
  | [] => [s]
  | t :: ts => if s.code ≤ t.code then s :: t :: ts else t :: insertByCode s ts

/-- `order_by("code")`: insertion sort of the seat rows by code. -/
def sortByCode : Store → Store
  | [] => []
  | s :: ss => insertByCode s (sortByCode ss)

/-- The seat-map payload: the trip dict and the per-seat dicts. -/
structure SeatMapData where
  trip : List (String × JVal)
  seats : List (List (String × JVal))
deriving DecidableEq, Repr

/-- get_seat_map: sweep, resolve the active trip, project its seats. -/
def get_seat_map (store : Store) (trips : List Trip) (now : Nat)
    (tripId : Nat) : ServiceResult × Option SeatMapData × Store :=
  let store1 := sweep store now
  match findTrip trips tripId with
  | none => (⟨false, "Trip tidak ditemukan."⟩, none, store1)
  | some trip =>
    let tripSeats := sortByCode (store1.filter (fun s => decide (s.tripId = tripId)))
    (⟨true, "OK"⟩,
     some ⟨tripEntry trip, tripSeats.map seatEntry⟩,
     store1)

/-- One call to any of the six Reservation Engine operations, with its
arguments. -/
inductive OpCall where
  | holdOp (tripId : Nat) (seat_code hold_token : String)
      (hold_minutes max_hold : Nat)
  | releaseOp (tripId : Nat) (seat_code hold_token : String)
  | attachOp (trips : List Trip) (tripId : Nat)
      (hold_token customer_name customer_wa gen_code : String)
  | claimOp (tripId : Nat) (claim_code new_hold_token : String)
      (customer_wa : Option String)
  | adminGenOp (tripId : Nat) (seat_codes : List String) (gen_code : String)
  | adminConfirmOp (tripId : Nat) (seat_codes : List String)

/-- Dispatch one Reservation Engine call on a store at a time. -/
def runOp (c : OpCall) (store : Store) (now : Nat) : ServiceResult × Store :=
  match c with
  | OpCall.holdOp tripId sc tok mins mx => hold_seat store now tripId sc tok mins mx
  | OpCall.releaseOp tripId sc tok => release_seat store now tripId sc tok
  | OpCall.attachOp trips tripId tok nm wa g =>
      attach_contact_and_generate_claim store trips now tripId tok nm wa g
  | OpCall.claimOp tripId cc tok wa => claim_hold_by_code store now tripId cc tok wa
  | OpCall.adminGenOp tripId cs g =>
      admin_generate_booking_code_and_book store now tripId cs g
  | OpCall.adminConfirmOp tripId cs => confirm_booked_by_admin store now tripId cs


/-- A fresh AVAILABLE seat as provisioned. -/
def baseSeat (i tripId : Nat) (c : String) : Seat :=
  { id := i, tripId := tripId, code := c, status := Status.available,
    hold_token := none, hold_until := none, customer_name := none,
    customer_wa := none, claim_code := none, booking_code := none,
    booked_at := none }

/-- An active demo trip for concrete instantiations. -/
def demoTrip : Trip :=
  { id := 1, title := "Jakarta - Bandung", bus_type := "EXEC",
    route_from := "Jakarta", route_to := "Bandung", depart_at := 100,
    price := 150000, capacity_total := 4, admin_wa := "0812",
    is_active := true }

/-- A HOLD seat with the given token, deadline and claim data. -/
def heldSeat (i tripId : Nat) (c tok : String) (until_ : Nat) : Seat :=
  { baseSeat i tripId c with
      status := Status.hold
      hold_token := some tok
      hold_until := some until_ }

/-- hold_until present and strictly in the future. -/
def holdUntilGt (now : Nat) (s : Seat) : Prop :=
  ∃ t, s.hold_until = some t ∧ now < t

instance (now : Nat) (s : Seat) : Decidable (holdUntilGt now s) := by
  unfold holdUntilGt
  exact match s.hold_until with
  | some t => decidable_of_iff (now < t) (by simp)
  | none => isFalse (by simp)

/-- Claim C6 fails as stated: a seat whose hold_until equals the sweep
time survives the sweep as HOLD without a strictly-future deadline, and a
HOLD seat with no hold_until at all also survives. -/
theorem C6_counterexample :
    ∃ s ∈ sweep [heldSeat 1 1 "A1" "tokenA" 5,
      { baseSeat 2 1 "A2" with
          status := Status.hold
          hold_token := some "tokenA" }] 5,
      s.status = Status.hold ∧ ¬ holdUntilGt 5 s := by decide

/-- Claim C6 (amended): after expire_holds runs at time now, every seat
with status HOLD and a present hold_until has hold_until ≥ now. -/
theorem C6_no_stale_hold (store : Store) (now : Nat) (s : Seat)
    (hs : s ∈ sweep store now) (hh : s.status = Status.hold)
    (t : Nat) (ht : s.hold_until = some t) : now ≤ t := by
  unfold sweep expire_holds at hs
  simp only [List.mem_map] at hs
  obtain ⟨s0, _, hmap⟩ := hs
  by_cases hexp : expiredHold now s0
  · rw [if_pos hexp] at hmap
    rw [← hmap] at hh
    simp [releaseSeat] at hh
  · rw [if_neg hexp] at hmap
    subst hmap
    unfold expiredHold holdUntilLt at hexp
    push_neg at hexp
    have h2 := hexp hh t ht
    omega

theorem C6_witness : 5 ≤ 7 :=
  C6_no_stale_hold [heldSeat 1 1 "A1" "tokenA" 7] 5
    (heldSeat 1 1 "A1" "tokenA" 7) (by decide) (by decide) 7 (by decide)

/-- On failure every operation returns exactly the swept store. -/
theorem C2_fail_only_sweep (c : OpCall) (store : Store) (now : Nat)
    (h : (runOp c store now).1.ok = false) :
    (runOp c store now).2 = sweep store now := by
  have key : (runOp c store now).1.ok = true ∨
      (runOp c store now).2 = sweep store now := by
    cases c <;>
      simp only [runOp, hold_seat, release_seat,
        attach_contact_and_generate_claim, claim_hold_by_code,
        admin_generate_booking_code_and_book, confirm_booked_by_admin] <;>
      (repeat' split) <;>
      first
        | (left; rfl)
        | (right; rfl)
  rcases key with hk | hk
  · simp [hk] at h
  · exact hk

theorem C2_counterexample :
    (runOp (OpCall.holdOp 1 "ZZ" "tokenB" 10 4)
      [heldSeat 1 1 "A1" "tokenA" 3] 5).1.ok = false ∧
    (runOp (OpCall.holdOp 1 "ZZ" "tokenB" 10 4)
      [heldSeat 1 1 "A1" "tokenA" 3] 5).2 ≠
      [heldSeat 1 1 "A1" "tokenA" 3] := by decide

theorem C2_witness :
    (runOp (OpCall.holdOp 1 "ZZ" "tokenB" 10 4)
      [baseSeat 1 1 "A1"] 5).2 = sweep [baseSeat 1 1 "A1"] 5 :=
  C2_fail_only_sweep (OpCall.holdOp 1 "ZZ" "tokenB" 10 4)
    [baseSeat 1 1 "A1"] 5 (by decide)


/-- Claim C1 test: refresh at quota fails. -/
theorem C1_counterexample :
    (∃ s ∈ [heldSeat 1 1 "A1" "tokenA" 10], s.code = "A1" ∧
      s.status = Status.hold ∧ s.hold_token = some "tokenA" ∧ holdUntilGe 5 s) ∧
    (hold_seat [heldSeat 1 1 "A1" "tokenA" 10] 5 1 "A1" "tokenA" 10 1).1.ok = false ∧
    (hold_seat [heldSeat 1 1 "A1" "tokenA" 10] 5 1 "A1" "tokenA" 10 1).1.message =
      "Maksimal hold 1 kursi." := by decide

/-- Claim C1 (amended): same-token refresh below quota. -/
theorem C1_same_token_refresh (store : Store) (now tripId : Nat)
    (seat_code tok : String) (mins mx : Nat) (seat : Seat)
    (hfind : findSeat (sweep store now) tripId seat_code = some seat)
    (hst : seat.status = Status.hold)
    (htok : seat.hold_token = some tok)
    (hge : holdUntilGe now seat)
    (hquota : _count_holds_for_token (sweep store now) now tripId tok < mx) :
    (hold_seat store now tripId seat_code tok mins mx).1 =
      ⟨true, "Hold diperpanjang."⟩ ∧
    (hold_seat store now tripId seat_code tok mins mx).2 =
      saveSeat (sweep store now) seat.id
        (fun s => { s with hold_until := some (now + mins) }) ∧
    ({ seat with hold_until := some (now + mins) } : Seat) ∈
      (hold_seat store now tripId seat_code tok mins mx).2 := by
  have h1 : ¬ (mx ≤ _count_holds_for_token (sweep store now) now tripId tok) :=
    Nat.not_le.mpr hquota
  have hnb : ¬ (seat.status = Status.booked) := by simp [hst]
  have hcond : seat.status = Status.hold ∧ holdUntilGe now seat := ⟨hst, hge⟩
  have hne : ¬ (seat.hold_token ≠ some tok) := by simp [htok]
  have hmem : seat ∈ sweep store now := by
    unfold findSeat at hfind
    exact List.mem_of_find?_eq_some hfind
  simp only [hold_seat, hfind, if_neg h1]
  rw [if_neg hnb, if_pos hcond, if_neg hne]
  refine ⟨rfl, rfl, ?_⟩
  unfold saveSeat
  simp only [List.mem_map]
  exact ⟨seat, hmem, by rw [if_pos rfl]⟩

theorem C1_witness :
    (hold_seat [heldSeat 1 1 "A1" "tokenA" 10] 5 1 "A1" "tokenA" 7 4).1 =
      ⟨true, "Hold diperpanjang."⟩ :=
  (C1_same_token_refresh [heldSeat 1 1 "A1" "tokenA" 10] 5 1 "A1" "tokenA" 7 4
    (heldSeat 1 1 "A1" "tokenA" 10) (by decide) (by decide) (by decide)
    (by decide) (by decide)).1


/-- A BOOKED seat. -/
def bookedSeat (i tripId : Nat) (c : String) : Seat :=
  { baseSeat i tripId c with
      status := Status.booked
      booked_at := some 1
      booking_code := some "BK1" }

/-- Claim C3 test: the NotFound message is one fixed constant, identical
for different sets of missing codes, so it names none of them. -/
theorem C3_counterexample :
    ((admin_generate_booking_code_and_book [baseSeat 1 1 "A1"] 5 1 ["A1", "Z9"] "BK").1 =
      ⟨false, "Ada kursi yang tidak ditemukan."⟩) ∧
    ((admin_generate_booking_code_and_book [baseSeat 1 1 "A1"] 5 1 ["A1", "Q7"] "BK").1 =
      ⟨false, "Ada kursi yang tidak ditemukan."⟩) ∧
    ((confirm_booked_by_admin [baseSeat 1 1 "A1"] 5 1 ["A1", "Z9"]).1 =
      ⟨false, "Ada kursi yang tidak ditemukan."⟩) ∧
    ((confirm_booked_by_admin [baseSeat 1 1 "A1"] 5 1 ["A1", "Q7"]).1 =
      ⟨false, "Ada kursi yang tidak ditemukan."⟩) := by decide

/-- Claim C3 (amended): count mismatch fails with the generic message. -/
theorem C3_notfound_generic (store : Store) (now tripId : Nat)
    (codes : List String) (gen : String)
    (h : (adminSeats (sweep store now) tripId codes).length ≠ codes.length) :
    (admin_generate_booking_code_and_book store now tripId codes gen).1 =
      ⟨false, "Ada kursi yang tidak ditemukan."⟩ ∧
    (confirm_booked_by_admin store now tripId codes).1 =
      ⟨false, "Ada kursi yang tidak ditemukan."⟩ := by
  constructor <;>
    simp only [admin_generate_booking_code_and_book, confirm_booked_by_admin] <;>
    rw [if_pos h]

theorem C3_witness :
    (admin_generate_booking_code_and_book [baseSeat 1 1 "A1"] 5 1 ["Z9"] "BK").1 =
      ⟨false, "Ada kursi yang tidak ditemukan."⟩ :=
  (C3_notfound_generic [baseSeat 1 1 "A1"] 5 1 ["Z9"] "BK" (by decide)).1

/-- Claim C4 test: failing AlreadyBooked call still sweeps A2. -/
theorem C4_counterexample :
    (confirm_booked_by_admin
      [bookedSeat 1 1 "A1", heldSeat 2 1 "A2" "tokenA" 3] 5 1 ["A1", "A2"]).1.ok
        = false ∧
    (∃ s ∈ [bookedSeat 1 1 "A1", heldSeat 2 1 "A2" "tokenA" 3],
      s.code = "A2" ∧ s.status = Status.hold) ∧
    (∀ s ∈ (confirm_booked_by_admin
      [bookedSeat 1 1 "A1", heldSeat 2 1 "A2" "tokenA" 3] 5 1 ["A1", "A2"]).2,
      s.code = "A2" → s.status = Status.available) := by decide

/-- Claim C4 (amended): already-booked seats fail both variants, naming the
offending codes, and nothing beyond the sweep is written. -/
theorem C4_already_booked (store : Store) (now tripId : Nat)
    (codes : List String) (gen : String)
    (hlen : (adminSeats (sweep store now) tripId codes).length = codes.length)
    (hb : alreadyBookedCodes (sweep store now) tripId codes ≠ []) :
    ((admin_generate_booking_code_and_book store now tripId codes gen).1 =
      ⟨false, "Kursi sudah BOOKED: " ++ String.intercalate ", "
        (alreadyBookedCodes (sweep store now) tripId codes)⟩) ∧
    ((admin_generate_booking_code_and_book store now tripId codes gen).2 =
      sweep store now) ∧
    ((confirm_booked_by_admin store now tripId codes).1 =
      ⟨false, "Kursi sudah BOOKED: " ++ String.intercalate ", "
        (alreadyBookedCodes (sweep store now) tripId codes)⟩) ∧
    ((confirm_booked_by_admin store now tripId codes).2 = sweep store now) := by
  have h1 : ¬ ((adminSeats (sweep store now) tripId codes).length ≠ codes.length) :=
    fun hc => hc hlen
  refine ⟨?_, ?_, ?_, ?_⟩ <;>
    simp only [admin_generate_booking_code_and_book, confirm_booked_by_admin] <;>
    rw [if_neg h1, if_pos hb]

theorem C4_witness :
    (confirm_booked_by_admin [bookedSeat 1 1 "A1", baseSeat 2 1 "A2"]
      5 1 ["A1", "A2"]).1 = ⟨false, "Kursi sudah BOOKED: A1"⟩ := by
  have h := (C4_already_booked [bookedSeat 1 1 "A1", baseSeat 2 1 "A2"]
    5 1 ["A1", "A2"] "BK" (by decide) (by decide)).2.2.1
  rw [h]
  decide

/-- Claim C9: the admin finalize variants ignore hold ownership. -/
theorem C9_admin_ignores_holds (store : Store) (now tripId : Nat)
    (codes : List String) (gen : String)
    (hlen : (adminSeats (sweep store now) tripId codes).length = codes.length)
    (hnb : alreadyBookedCodes (sweep store now) tripId codes = []) :
    ((admin_generate_booking_code_and_book store now tripId codes gen).1.ok = true) ∧
    ((confirm_booked_by_admin store now tripId codes).1.ok = true) ∧
    ((admin_generate_booking_code_and_book store now tripId codes gen).2 =
      (sweep store now).map (fun s =>
        if adminPred tripId codes s then
          { s with
              status := Status.booked
              booked_at := some now
              booking_code := some gen
              hold_token := none
              hold_until := none }
        else s)) ∧
    ((confirm_booked_by_admin store now tripId codes).2 =
      (sweep store now).map (fun s =>
        if adminPred tripId codes s then
          { s with
              status := Status.booked
              booked_at := some now
              hold_token := none
              hold_until := none }
        else s)) ∧
    (∀ s ∈ sweep store now, adminPred tripId codes s →
      ({ s with
           status := Status.booked
           booked_at := some now
           booking_code := some gen
           hold_token := none
           hold_until := none } : Seat) ∈
        (admin_generate_booking_code_and_book store now tripId codes gen).2) := by
  have h1 : ¬ ((adminSeats (sweep store now) tripId codes).length ≠ codes.length) :=
    fun hc => hc hlen
  have h2 : ¬ (alreadyBookedCodes (sweep store now) tripId codes ≠ []) :=
    fun hc => hc hnb
  simp only [admin_generate_booking_code_and_book, confirm_booked_by_admin]
  rw [if_neg h1, if_neg h2]
  refine ⟨rfl, ?_, rfl, ?_, ?_⟩
  · rw [if_neg h1, if_neg h2]
  · rw [if_neg h1, if_neg h2]
  · intro s hs hp
    simp only [List.mem_map]
    exact ⟨s, hs, by rw [if_pos hp]⟩

theorem C9_witness :
    (admin_generate_booking_code_and_book
      [heldSeat 1 1 "A1" "tokenA" 10, baseSeat 2 1 "A2"] 5 1 ["A1", "A2"]
      "BK").1.ok = true :=
  (C9_admin_ignores_holds [heldSeat 1 1 "A1" "tokenA" 10, baseSeat 2 1 "A2"]
    5 1 ["A1", "A2"] "BK" (by decide) (by decide)).1


/-- Claim C5 test: a successful claim transfer still sweeps an unrelated
stale seat, which is therefore not left entirely untouched. -/
theorem C5_counterexample :
    ((claim_hold_by_code
      [{ heldSeat 1 1 "A1" "tokenA" 10 with claim_code := some "CODE" },
       heldSeat 2 1 "B1" "tokenA" 3] 5 1 "CODE" "tokenB" none).1.ok = true) ∧
    (∃ s ∈ [{ heldSeat 1 1 "A1" "tokenA" 10 with claim_code := some "CODE" },
       heldSeat 2 1 "B1" "tokenA" 3],
      s.code = "B1" ∧ s.status = Status.hold) ∧
    (∀ s ∈ (claim_hold_by_code
      [{ heldSeat 1 1 "A1" "tokenA" 10 with claim_code := some "CODE" },
       heldSeat 2 1 "B1" "tokenA" 3] 5 1 "CODE" "tokenB" none).2,
      s.code = "B1" → s.status = Status.available) := by decide

/-- Claim C5 (amended): a successful claim_hold_by_code rewrites exactly
hold_token on the matched seats and leaves every other field, and every
seat of the swept store outside the matched set, unchanged. -/
theorem C5_claim_transfer (store : Store) (now tripId : Nat)
    (cc tok : String) (wa : Option String)
    (h : (claim_hold_by_code store now tripId cc tok wa).1.ok = true) :
    ((claim_hold_by_code store now tripId cc tok wa).2 =
      (sweep store now).map (fun s =>
        if claimPred now tripId cc wa s then
          { s with hold_token := some tok }
        else s)) ∧
    (∀ s ∈ sweep store now,
      (claimPred now tripId cc wa s →
        ({ s with hold_token := some tok } : Seat) ∈
          (claim_hold_by_code store now tripId cc tok wa).2) ∧
      (¬ claimPred now tripId cc wa s →
        s ∈ (claim_hold_by_code store now tripId cc tok wa).2)) ∧
    (∀ s2 ∈ (claim_hold_by_code store now tripId cc tok wa).2,
      ∃ s ∈ sweep store now,
        s2.hold_until = s.hold_until ∧ s2.customer_name = s.customer_name ∧
        s2.customer_wa = s.customer_wa ∧ s2.claim_code = s.claim_code ∧
        s2.status = s.status ∧ s2.code = s.code ∧ s2.id = s.id) := by
  by_cases hc : ¬ (sweep store now).any
      (fun s => decide (claimPred now tripId cc wa s))
  · exfalso
    unfold claim_hold_by_code at h
    rw [if_pos hc] at h
    simp at h
  · unfold claim_hold_by_code at h ⊢
    rw [if_neg hc] at h ⊢
    refine ⟨rfl, ?_, ?_⟩
    · intro s hs
      constructor
      · intro hp
        simp only [List.mem_map]
        exact ⟨s, hs, by rw [if_pos hp]⟩
      · intro hp
        simp only [List.mem_map]
        exact ⟨s, hs, by rw [if_neg hp]⟩
    · intro s2 hs2
      simp only [List.mem_map] at hs2
      obtain ⟨s, hs, hmap⟩ := hs2
      refine ⟨s, hs, ?_⟩
      by_cases hp : claimPred now tripId cc wa s
      · rw [if_pos hp] at hmap
        rw [← hmap]
        exact ⟨rfl, rfl, rfl, rfl, rfl, rfl, rfl⟩
      · rw [if_neg hp] at hmap
        rw [← hmap]
        exact ⟨rfl, rfl, rfl, rfl, rfl, rfl, rfl⟩

theorem C5_witness :
    ({ heldSeat 1 1 "A1" "tokenB" 10 with claim_code := some "CODE" } : Seat) ∈
      (claim_hold_by_code
        [{ heldSeat 1 1 "A1" "tokenA" 10 with claim_code := some "CODE" }]
        5 1 "CODE" "tokenB" none).2 := by
  have h := ((C5_claim_transfer
    [{ heldSeat 1 1 "A1" "tokenA" 10 with claim_code := some "CODE" }]
    5 1 "CODE" "tokenB" none (by decide)).2.1
    { heldSeat 1 1 "A1" "tokenA" 10 with claim_code := some "CODE" }
    (by decide)).1 (by decide)
  exact h

/-- Claim C8 test: with no active hold the call fails NoActiveHold yet the
sweep write persists, and a successful call stores the stripped name, not
the literal argument. -/
theorem C8_counterexample :
    ((attach_contact_and_generate_claim [heldSeat 1 1 "A2" "tokenA" 3]
      [demoTrip] 5 1 "tokenA" "Budi" "0812" "CC").1 =
        ⟨false, "Tidak ada kursi hold aktif untuk token ini."⟩) ∧
    ((attach_contact_and_generate_claim [heldSeat 1 1 "A2" "tokenA" 3]
      [demoTrip] 5 1 "tokenA" "Budi" "0812" "CC").2 ≠
        [heldSeat 1 1 "A2" "tokenA" 3]) ∧
    ((∀ s ∈ (attach_contact_and_generate_claim [heldSeat 1 1 "A1" "tokenA" 10]
      [demoTrip] 5 1 "tokenA" " Budi " "0812" "CC").2,
        s.customer_name ≠ some " Budi ") ∧
     (∃ s ∈ (attach_contact_and_generate_claim [heldSeat 1 1 "A1" "tokenA" 10]
      [demoTrip] 5 1 "tokenA" " Budi " "0812" "CC").2,
        s.customer_name = some "Budi")) := by decide

/-- Claim C8 (amended): attach writes the generated claim code and the
stripped contact data onto exactly the active holds of the token; with no
active hold it fails NoActiveHold writing nothing beyond the sweep. -/
theorem C8_attach_claim_cohort (store : Store) (trips : List Trip)
    (now tripId : Nat) (tok nm wa gen : String) (trip : Trip)
    (htrip : findTrip trips tripId = some trip) :
    ((¬ ∃ s ∈ sweep store now, attachPred now tripId tok s) →
      attach_contact_and_generate_claim store trips now tripId tok nm wa gen =
        (⟨false, "Tidak ada kursi hold aktif untuk token ini."⟩,
         sweep store now)) ∧
    ((∃ s ∈ sweep store now, attachPred now tripId tok s) →
      ((attach_contact_and_generate_claim store trips now tripId tok nm wa gen).1.ok
          = true) ∧
      ((attach_contact_and_generate_claim store trips now tripId tok nm wa gen).2 =
        (sweep store now).map (fun s =>
          if attachPred now tripId tok s then
            { s with
                customer_name := some (pyStrip nm)
                customer_wa := some (pyStrip wa)
                claim_code := some gen }
          else s))) := by
  have hany : ((sweep store now).any
      (fun s => decide (attachPred now tripId tok s)) = true) ↔
      ∃ s ∈ sweep store now, attachPred now tripId tok s := by
    simp [List.any_eq_true]
  constructor
  · intro hno
    have hcond : ¬ (sweep store now).any
        (fun s => decide (attachPred now tripId tok s)) := by
      intro hc
      exact hno (hany.mp hc)
    unfold attach_contact_and_generate_claim
    rw [htrip]
    simp only []
    rw [if_pos hcond]
  · intro hyes
    have hcond : ¬ ¬ (sweep store now).any
        (fun s => decide (attachPred now tripId tok s)) := by
      intro hc
      exact hc (hany.mpr hyes)
    unfold attach_contact_and_generate_claim
    rw [htrip]
    simp only []
    rw [if_neg hcond]
    exact ⟨rfl, rfl⟩

theorem C8_witness :
    (attach_contact_and_generate_claim [heldSeat 1 1 "A1" "tokenA" 10]
      [demoTrip] 5 1 "tokenA" "Budi" "0812" "CC").1.ok = true :=
  ((C8_attach_claim_cohort [heldSeat 1 1 "A1" "tokenA" 10] [demoTrip]
    5 1 "tokenA" "Budi" "0812" "CC" demoTrip (by decide)).2 (by decide)).1


/-- Agreement on every seat field outside the privacy-sensitive set
(hold_token, claim_code, booking_code, customer_name, customer_wa). -/
def visEq (s1 s2 : Seat) : Prop :=
  s1.id = s2.id ∧ s1.tripId = s2.tripId ∧ s1.code = s2.code ∧
    s1.status = s2.status ∧ s1.hold_until = s2.hold_until ∧
    s1.booked_at = s2.booked_at

instance (s1 s2 : Seat) : Decidable (visEq s1 s2) := by
  unfold visEq; infer_instance

lemma sweep_eq_map (l : Store) (now : Nat) :
    sweep l now = l.map (fun s => if expiredHold now s then releaseSeat s else s) :=
  rfl

lemma expiredHold_congr (now : Nat) {s1 s2 : Seat} (h : visEq s1 s2) :
    expiredHold now s1 ↔ expiredHold now s2 := by
  unfold expiredHold holdUntilLt
  rw [h.2.2.2.1, h.2.2.2.2.1]

lemma releaseSeat_visEq {s1 s2 : Seat} (h : visEq s1 s2) :
    visEq (releaseSeat s1) (releaseSeat s2) := by
  obtain ⟨h1, h2, h3, h4, h5, h6⟩ := h
  exact ⟨h1, h2, h3, rfl, rfl, h6⟩

lemma sweepStep_visEq (now : Nat) {s1 s2 : Seat} (h : visEq s1 s2) :
    visEq (if expiredHold now s1 then releaseSeat s1 else s1)
      (if expiredHold now s2 then releaseSeat s2 else s2) := by
  by_cases hc : expiredHold now s1
  · rw [if_pos hc, if_pos ((expiredHold_congr now h).mp hc)]
    exact releaseSeat_visEq h
  · rw [if_neg hc, if_neg (fun hc2 => hc ((expiredHold_congr now h).mpr hc2))]
    exact h

lemma sweep_visEq {l1 l2 : Store} (now : Nat)
    (h : List.Forall₂ visEq l1 l2) :
    List.Forall₂ visEq (sweep l1 now) (sweep l2 now) := by
  rw [sweep_eq_map, sweep_eq_map]
  induction h with
  | nil => exact List.Forall₂.nil
  | cons hab htl ih =>
    simp only [List.map_cons]
    exact List.Forall₂.cons (sweepStep_visEq now hab) ih

lemma filterTrip_visEq {l1 l2 : Store} (tripId : Nat)
    (h : List.Forall₂ visEq l1 l2) :
    List.Forall₂ visEq (l1.filter (fun s => decide (s.tripId = tripId)))
      (l2.filter (fun s => decide (s.tripId = tripId))) := by
  induction h with
  | nil => exact List.Forall₂.nil
  | cons hab htl ih =>
    rename_i a b l1t l2t
    simp only [List.filter_cons, decide_eq_true_eq]
    by_cases hc : a.tripId = tripId
    · have hc2 : b.tripId = tripId := hab.2.1 ▸ hc
      rw [if_pos hc, if_pos hc2]
      exact List.Forall₂.cons hab ih
    · have hc2 : ¬ b.tripId = tripId := fun hx => hc (hab.2.1 ▸ hx)
      rw [if_neg hc, if_neg hc2]
      exact ih

lemma insertByCode_visEq {a b : Seat} {l1 l2 : Store} (hab : visEq a b)
    (h : List.Forall₂ visEq l1 l2) :
    List.Forall₂ visEq (insertByCode a l1) (insertByCode b l2) := by
  induction h with
  | nil => exact List.Forall₂.cons hab List.Forall₂.nil
  | cons hxy htl ih =>
    rename_i x y l1t l2t
    unfold insertByCode
    by_cases hc : a.code ≤ x.code
    · have hc2 : b.code ≤ y.code := by rw [← hab.2.2.1, ← hxy.2.2.1]; exact hc
      rw [if_pos hc, if_pos hc2]
      exact List.Forall₂.cons hab (List.Forall₂.cons hxy htl)
    · have hc2 : ¬ b.code ≤ y.code := by rw [← hab.2.2.1, ← hxy.2.2.1]; exact hc
      rw [if_neg hc, if_neg hc2]
      exact List.Forall₂.cons hxy ih

lemma sortByCode_visEq {l1 l2 : Store}
    (h : List.Forall₂ visEq l1 l2) :
    List.Forall₂ visEq (sortByCode l1) (sortByCode l2) := by
  induction h with
  | nil => exact List.Forall₂.nil
  | cons hab htl ih =>
    unfold sortByCode
    exact insertByCode_visEq hab ih

lemma seatEntry_congr {s1 s2 : Seat} (h : visEq s1 s2) :
    seatEntry s1 = seatEntry s2 := by
  obtain ⟨h1, h2, h3, h4, h5, h6⟩ := h
  unfold seatEntry
  rw [h1, h3, h4, h5]

lemma mapSeatEntry_congr {l1 l2 : Store}
    (h : List.Forall₂ visEq l1 l2) :
    l1.map seatEntry = l2.map seatEntry := by
  induction h with
  | nil => rfl
  | cons hab htl ih =>
    simp only [List.map_cons]
    rw [seatEntry_congr hab, ih]

/-- Claim C7 test: the per-seat projection also carries the id field, so
it is not only code, status and hold_until. -/
theorem C7_counterexample :
    ((get_seat_map [baseSeat 1 1 "A1"] [demoTrip] 5 1).2.1.map
      (fun d => d.seats.map (fun e => e.map Prod.fst))) =
      some [["id", "code", "status", "hold_until"]] ∧
    (["id", "code", "status", "hold_until"] : List String) ≠
      ["code", "status", "hold_until"] := by decide

/-- Claim C7 (amended): the seat-map projection exposes per seat exactly
id, code, status and hold_until, and its whole output is independent of
hold_token, claim_code, booking_code, customer_name and customer_wa. -/
theorem C7_projection (store store2 : Store) (trips : List Trip)
    (now tripId : Nat) :
    (∀ d, (get_seat_map store trips now tripId).2.1 = some d →
      ∀ e ∈ d.seats,
        e.map Prod.fst = ["id", "code", "status", "hold_until"]) ∧
    (List.Forall₂ visEq store store2 →
      ((get_seat_map store trips now tripId).1 =
        (get_seat_map store2 trips now tripId).1 ∧
       (get_seat_map store trips now tripId).2.1 =
        (get_seat_map store2 trips now tripId).2.1)) := by
  constructor
  · intro d hd e he
    rcases hft : findTrip trips tripId with _ | trip
    · simp only [get_seat_map, hft] at hd
      exact Option.noConfusion hd
    · simp only [get_seat_map, hft, Option.some.injEq] at hd
      rw [← hd] at he
      simp only [List.mem_map] at he
      obtain ⟨s, _, hse⟩ := he
      rw [← hse]
      rfl
  · intro hrel
    have hmap := mapSeatEntry_congr
      (sortByCode_visEq (filterTrip_visEq tripId (sweep_visEq now hrel)))
    rcases hft : findTrip trips tripId with _ | trip
    · simp only [get_seat_map, hft]
      exact ⟨trivial, trivial⟩
    · simp only [get_seat_map, hft]
      refine ⟨trivial, ?_⟩
      rw [hmap]

theorem C7_witness :
    (get_seat_map
      [{ heldSeat 1 1 "A1" "tokenA" 10 with
           claim_code := some "X"
           customer_name := some "Budi"
           customer_wa := some "0812" }] [demoTrip] 5 1).2.1 =
    (get_seat_map
      [{ heldSeat 1 1 "A1" "tokenB" 10 with
           booking_code := some "Y" }] [demoTrip] 5 1).2.1 :=
  ((C7_projection
    [{ heldSeat 1 1 "A1" "tokenA" 10 with
         claim_code := some "X"
         customer_name := some "Budi"
         customer_wa := some "0812" }]
    [{ heldSeat 1 1 "A1" "tokenB" 10 with
         booking_code := some "Y" }] [demoTrip] 5 1).2
    (List.Forall₂.cons (by decide) List.Forall₂.nil)).2


lemma filter_mem_length_eq_dedup {α : Type} [DecidableEq α] (D codes : List α)
    (hD : D.Nodup) (hsub : ∀ c ∈ codes, c ∈ D) :
    (D.filter (fun c => decide (c ∈ codes))).length = codes.dedup.length := by
  have h1 : (D.filter (fun c => decide (c ∈ codes))).Nodup := hD.filter _
  have h2 : codes.dedup.Nodup := List.nodup_dedup codes
  have h3 : ∀ a, a ∈ D.filter (fun c => decide (c ∈ codes)) ↔ a ∈ codes.dedup := by
    intro a
    simp only [List.mem_filter, List.mem_dedup, decide_eq_true_eq]
    constructor
    · rintro ⟨_, h⟩
      exact h
    · intro h
      exact ⟨hsub a h, h⟩
  exact ((List.perm_ext_iff_of_nodup h1 h2).mpr h3).length_eq

lemma dedup_length_lt {α : Type} [DecidableEq α] (codes : List α)
    (h : ¬ codes.Nodup) : codes.dedup.length < codes.length := by
  have hsub := List.dedup_sublist codes
  rcases Nat.lt_or_ge codes.dedup.length codes.length with hlt | hge
  · exact hlt
  · exfalso
    have heq : codes.dedup.length = codes.length :=
      Nat.le_antisymm hsub.length_le hge
    exact h (List.dedup_eq_self.mp (hsub.eq_of_length heq))

lemma adminSeats_eq_filter_code (l : Store) (tid : Nat) (codes : List String) :
    adminSeats l tid codes =
      (l.filter (fun s => decide (s.tripId = tid))).filter
        (fun s => decide (s.code ∈ codes)) := by
  induction l with
  | nil => rfl
  | cons s t ih =>
    by_cases h1 : s.tripId = tid <;> by_cases h2 : s.code ∈ codes <;>
      simp [adminSeats, adminPred, List.filter_cons, h1, h2] at * <;>
      exact ih

lemma filter_code_length (T : Store) (codes : List String) :
    (T.filter (fun s => decide (s.code ∈ codes))).length =
      ((T.map Seat.code).filter (fun c => decide (c ∈ codes))).length := by
  induction T with
  | nil => rfl
  | cons s t ih =>
    by_cases h : s.code ∈ codes <;>
      simp [List.filter_cons, h, ih]

lemma adminSeats_length_eq_dedup (l : Store) (tid : Nat) (codes : List String)
    (hex : ∀ c ∈ codes, ∃ s ∈ l, s.tripId = tid ∧ s.code = c)
    (huniq : ((l.filter (fun s => decide (s.tripId = tid))).map Seat.code).Nodup) :
    (adminSeats l tid codes).length = codes.dedup.length := by
  rw [adminSeats_eq_filter_code, filter_code_length]
  apply filter_mem_length_eq_dedup _ _ huniq
  intro c hc
  obtain ⟨s, hs, ht, hcode⟩ := hex c hc
  simp only [List.mem_map, List.mem_filter, decide_eq_true_eq]
  exact ⟨s, ⟨hs, ht⟩, hcode⟩

lemma sweep_adminSeats_length (l : Store) (now tid : Nat) (codes : List String) :
    (adminSeats (sweep l now) tid codes).length =
      (adminSeats l tid codes).length := by
  rw [sweep_eq_map]
  induction l with
  | nil => rfl
  | cons s t ih =>
    have hpred : adminPred tid codes
        (if expiredHold now s then releaseSeat s else s) ↔
        adminPred tid codes s := by
      by_cases hc : expiredHold now s
      · rw [if_pos hc]
        exact Iff.rfl
      · rw [if_neg hc]
    by_cases hp : adminPred tid codes s
    · simp [adminSeats, List.filter_cons, decide_eq_true hp,
        decide_eq_true (hpred.mpr hp)] at *
      exact ih
    · simp [adminSeats, List.filter_cons, decide_eq_false hp,
        decide_eq_false (fun hx => hp (hpred.mp hx))] at *
      exact ih

/-- Claim C10: a duplicated seat code in the request makes the distinct
loaded rows fewer than the requested-list length, so both admin variants
fail with the generic not-found result even though every named seat
exists. -/
theorem C10_duplicate_codes (store : Store) (now tripId : Nat)
    (codes : List String) (gen : String)
    (hdup : ¬ codes.Nodup)
    (hex : ∀ c ∈ codes, ∃ s ∈ store, s.tripId = tripId ∧ s.code = c)
    (huniq : ((store.filter (fun s => decide (s.tripId = tripId))).map
      Seat.code).Nodup) :
    (admin_generate_booking_code_and_book store now tripId codes gen).1 =
      ⟨false, "Ada kursi yang tidak ditemukan."⟩ ∧
    (confirm_booked_by_admin store now tripId codes).1 =
      ⟨false, "Ada kursi yang tidak ditemukan."⟩ := by
  have hlen : (adminSeats (sweep store now) tripId codes).length ≠
      codes.length := by
    rw [sweep_adminSeats_length,
      adminSeats_length_eq_dedup store tripId codes hex huniq]
    exact Nat.ne_of_lt (dedup_length_lt codes hdup)
  constructor <;>
    simp only [admin_generate_booking_code_and_book,
      confirm_booked_by_admin] <;>
    rw [if_pos hlen]

theorem C10_witness :
    (confirm_booked_by_admin [baseSeat 1 1 "A1"] 5 1 ["A1", "A1"]).1 =
      ⟨false, "Ada kursi yang tidak ditemukan."⟩ :=
  (C10_duplicate_codes [baseSeat 1 1 "A1"] 5 1 ["A1", "A1"] "BK"
    (by decide) (by decide) (by decide)).2

end Booking
